import Mathlib

/-!
Shallow embedding of `src/smsgateway.py` (a Gammu SMS gateway).

The program keeps module-level mutable state: the `config` dictionary
(whose `receive_whitelist` and `send_blacklist` entries are Python lists
of phone-number strings) and the unbounded FIFO `sms_queue`.  We model
this mutable state as an explicit `GatewayState` record threaded through
the functions.  Two ghost fields instrument the state for the proofs:
`calls` records each invocation of `send_sms` (the enqueue API) with its
arguments, in call order, and `sendAttempts` records each `sm.SendSMS`
attempt made by the sender worker.  Logging calls are recorded in `log`.

Python lists are modelled as Lean lists: `list.append` is `++ [x]`,
`list.remove` (remove the first occurrence) is `List.erase`, and `x in l`
is list membership.  Python exceptions raised by the modem are modelled
by injected outcomes (`SendOutcome`, `Option SmsRecord` fetch results);
an exception escaping a handler is modelled by `Option` (`none` = the
handler raises).
-/

namespace SmsGateway

/-- Log events emitted by the program, in source order of the `logging`
calls that produce them. -/
inductive LogEvent where
  | errorNoNumbers : LogEvent
  | errorNoMessage : LogEvent
  | warnNonString : LogEvent
  | errorNoMessageJson : LogEvent
  | errorBadJson : LogEvent
  | infoSent (number : String) : LogEvent
  | errorSendFailed (number : String) : LogEvent
  | criticalReadError : LogEvent
  | infoReceived (number : String) : LogEvent
  | errorBlacklisted (number : String) : LogEvent
  | errorDenied (number : String) : LogEvent
deriving DecidableEq, Repr

/-- The module-level mutable state of `smsgateway.py`:
`config['receive_whitelist']`, `config['send_blacklist']` (Python lists
of strings) and the FIFO `sms_queue` (front of the Lean list = front of
the queue).  `calls` and `sendAttempts` are ghost instrumentation:
`calls` records the arguments of every `send_sms` invocation, and
`sendAttempts` the arguments of every `sm.SendSMS` attempt. -/
structure GatewayState where
  receive_whitelist : List String
  send_blacklist : List String
  queue : List (String × String)
  calls : List (String × String)
  sendAttempts : List (String × String)
  log : List LogEvent
deriving DecidableEq, Repr

/-- Embedding of `send_sms(number, text)` (lines 122-126): if the number
is not blacklisted, push `(number, text)` onto the FIFO queue; otherwise
log an error.  The ghost `calls` field records the invocation. -/
def send_sms (number text : String) (st : GatewayState) : GatewayState :=
  let st := { st with calls := st.calls ++ [(number, text)] }
  if number ∉ st.send_blacklist then
    { st with queue := st.queue ++ [(number, text)] }
  else
    { st with log := st.log ++ [LogEvent.errorBlacklisted number] }

/-- Python `text.lower()`: character-wise lower-casing.  Behaviourally
the same as `String.toLower` (ASCII case mapping), but defined by
structural recursion over the character list so that concrete instances
evaluate inside the kernel. -/
def strLower (s : String) : String := ⟨s.data.map Char.toLower⟩

/-- Embedding of `read_sms(number, text)` (lines 129-144): the command
interpreter.  Whitelist check, lower-case the text, then dispatch on
`ping` / `pause` / anything else.  For `pause`, a blacklisted sender is
removed (first occurrence, as Python `list.remove`) and then sent `OK`;
a non-blacklisted sender is sent `OK` first and then appended. -/
def read_sms (number text : String) (st : GatewayState) : GatewayState :=
  if number ∈ st.receive_whitelist then
    let command := strLower text
    if command = "ping" then
      send_sms number "PONG" st
    else if command = "pause" then
      if number ∈ st.send_blacklist then
        let st := { st with send_blacklist := st.send_blacklist.erase number }
        send_sms number "OK" st
      else
        let st := send_sms number "OK" st
        { st with send_blacklist := st.send_blacklist ++ [number] }
    else
      send_sms number "ERROR" st
  else
    { st with log := st.log ++ [LogEvent.errorDenied number] }

/-- Outcome of one `sm.SendSMS` device call: success, or any raised
exception. -/
inductive SendOutcome where
  | success : SendOutcome
  | failure : SendOutcome
deriving DecidableEq, Repr

/-- Embedding of one iteration of the `sms_sender(sm)` worker loop
(lines 78-90): pop one item from the queue (`sms_queue.get()` blocks on
an empty queue, so the step is the identity there), attempt to send it,
log success or the caught exception.  The popped item is never pushed
back, whatever the outcome. -/
def sms_sender_step (outcome : SendOutcome) (st : GatewayState) : GatewayState :=
  match st.queue with
  | [] => st
  | data :: rest =>
    let st := { st with queue := rest, sendAttempts := st.sendAttempts ++ [data] }
    match outcome with
    | SendOutcome.success => { st with log := st.log ++ [LogEvent.infoSent data.1] }
    | SendOutcome.failure => { st with log := st.log ++ [LogEvent.errorSendFailed data.1] }

/-- One stored inbound record as fetched by `sm.GetNextSMS` (the code
uses `sms[0]`, the first part of the returned multipart list): sender
number, text, storage location, and `parts` = `len(sms)`, the number of
parts returned by the fetch. -/
structure SmsRecord where
  number : String
  text : String
  location : Nat
  parts : Nat
deriving DecidableEq, Repr

/-- Embedding of the drain loop of `sms_reader` (lines 98-109).
`remain` is the pending count from `GetSMSStatus`; `fetches` is the
sequence of outcomes of the successive fetch-and-delete rounds, where
`none` means the device call raises at that round.  Running off the end
of `fetches` while `remain > 0` also models a device exception
(`GetNextSMS` raising on an empty inbox).  Returns the records
accumulated in `sms_messages` before the loop ended, and whether the
cycle ended in an exception. -/
def drain_loop (remain : Nat) (fetches : List (Option SmsRecord)) :
    List SmsRecord × Bool :=
  if remain = 0 then ([], false)
  else
    match fetches with
    | [] => ([], true)
    | none :: _ => ([], true)
    | some r :: rest =>
      let p := drain_loop (remain - r.parts) rest
      (r :: p.1, p.2)

/-- Embedding of one cycle of the `sms_reader(sm)` loop (lines 94-119):
drain the inbox inside a `try` (a `GetSMSStatus` failure is
`status = none`), log critically if the drain raised, then dispatch
every accumulated record to `read_sms` in fetch order, logging the
reception of each. -/
def sms_reader_cycle (status : Option Nat) (fetches : List (Option SmsRecord))
    (st : GatewayState) : GatewayState :=
  let p := match status with
    | none => (([] : List SmsRecord), true)
    | some remain => drain_loop remain fetches
  let st := if p.2 then { st with log := st.log ++ [LogEvent.criticalReadError] } else st
  p.1.foldl
    (fun s sms =>
      read_sms sms.number sms.text
        { s with log := s.log ++ [LogEvent.infoReceived sms.number] })
    st

/-!
The HTTP ingress handler `receive_sms` (lines 29-75).  Its POST branch
decodes the request body with `json.loads` and walks a chain of
`if`/`elif` tests written with Python dynamic typing, so we embed a
small JSON value type together with the Python semantics of `in`,
subscription and iteration.  A `None` result models an exception the
handler does not catch (e.g. `TypeError`), which would escape to the
web framework; the caught `ValueError` of `json.loads` is instead a
parse-failure input (`Except.error` body).  JSON numbers are modelled
as integers only (no claim involves numbers).
-/

/-- JSON values as produced by `json.loads`: objects are association
lists in document order (keys of a parsed object are unique). -/
inductive Json where
  | str : String → Json
  | num : Int → Json
  | bool : Bool → Json
  | null : Json
  | arr : List Json → Json
  | obj : List (String × Json) → Json

/-- A single-quote character, for building Python `repr` output. -/
def sq : String := String.singleton (Char.ofNat 39)

mutual

/-- Python `repr()` of a decoded JSON value (Python 2: decoded strings
are `unicode`, so their repr carries a `u` prefix; escaping inside
strings is not modelled as no claim depends on it). -/
def jsonRepr : Json → String
  | Json.str s => "u" ++ sq ++ s ++ sq
  | Json.num i => toString i
  | Json.bool b => cond b "True" "False"
  | Json.null => "None"
  | Json.arr xs => "[" ++ jsonReprList xs ++ "]"
  | Json.obj kvs => "\x7b" ++ jsonReprObj kvs ++ "\x7d"

/-- Comma-separated `repr`s of the elements of a Python list. -/
def jsonReprList : List Json → String
  | [] => ""
  | [x] => jsonRepr x
  | x :: y :: xs => jsonRepr x ++ ", " ++ jsonReprList (y :: xs)

/-- Comma-separated `key: value` `repr`s of the items of a Python dict. -/
def jsonReprObj : List (String × Json) → String
  | [] => ""
  | [kv] => "u" ++ sq ++ kv.1 ++ sq ++ ": " ++ jsonRepr kv.2
  | kv :: kv2 :: kvs =>
    "u" ++ sq ++ kv.1 ++ sq ++ ": " ++ jsonRepr kv.2 ++ ", " ++ jsonReprObj (kv2 :: kvs)

end

/-- Python `str()` of a decoded JSON value, as used by the `'%s=%s'`
formatting of the alerts branch. -/
def jsonToStr : Json → String
  | Json.str s => s
  | j => jsonRepr j

/-- Substring test on character lists, for Python `needle in haystack`
on strings. -/
def pySubstr (needle : List Char) : List Char → Bool
  | [] => needle.isEmpty
  | c :: t => needle.isPrefixOf (c :: t) || pySubstr needle t

/-- Python `key in data` for a string key: key membership on a dict,
element membership on a list, substring test on a string; raises
`TypeError` (modelled `none`) on numbers, booleans and `None`. -/
def pyContains (key : String) : Json → Option Bool
  | Json.obj kvs => some (kvs.any (fun kv => kv.1 == key))
  | Json.arr xs =>
    some (xs.any (fun j => match j with | Json.str s => s == key | _ => false))
  | Json.str s => some (pySubstr key.data s.data)
  | _ => none

/-- Python `data[key]` for a string key: dict lookup; a missing key
(`KeyError`) or a non-dict operand (`TypeError`) raises. -/
def pyGet (key : String) : Json → Option Json
  | Json.obj kvs => (kvs.find? (fun kv => kv.1 == key)).map (fun kv => kv.2)
  | _ => none

/-- Python `for x in data`: lists yield their elements, strings yield
one-character strings, dicts yield their keys; other values raise. -/
def pyIter : Json → Option (List Json)
  | Json.arr xs => some xs
  | Json.str s => some (s.data.map (fun c => Json.str (String.singleton c)))
  | Json.obj kvs => some (kvs.map (fun kv => Json.str kv.1))
  | _ => none

/-- Embedding of the `messages` branch body (lines 54-58): keep the
string elements in order, emit one warning log per non-string element. -/
def collect_string_messages : List Json → List String × List LogEvent
  | [] => ([], [])
  | Json.str s :: rest =>
    let p := collect_string_messages rest
    (s :: p.1, p.2)
  | _ :: rest =>
    let p := collect_string_messages rest
    (p.1, LogEvent.warnNonString :: p.2)

/-- Embedding of the `alerts` branch body (lines 60-63): for each alert
carrying an `annotations` key, append the `', '`-joined `key=value`
rendering of the annotations dict, in key order.  `none` models an
uncaught exception (subscription or `.keys()` on an incompatible
value). -/
def alert_messages : List Json → Option (List String)
  | [] => some []
  | alert :: rest => do
    let c ← pyContains "annotations" alert
    if c then
      let ann ← pyGet "annotations" alert
      match ann with
      | Json.obj kvs =>
        let msg := String.intercalate ", "
          (kvs.map (fun kv => kv.1 ++ "=" ++ jsonToStr kv.2))
        let tail ← alert_messages rest
        some (msg :: tail)
      | _ => none
    else
      alert_messages rest

/-- Embedding of the POST message-extraction chain (lines 51-66):
`message` string field, else `messages` list field, else `alerts`, else
the "could not read message from JSON" error (`Except.error`).  The
outer `Option` is `none` when the Python code would raise an uncaught
exception.  On success, returns the collected messages and the warning
logs emitted while collecting them. -/
def extract_post_messages (data : Json) :
    Option (Except Unit (List String × List LogEvent)) := do
  let hasMsg ← pyContains "message" data
  let msgVal ←
    if hasMsg then do
      let v ← pyGet "message" data
      pure (match v with | Json.str s => some s | _ => none)
    else pure none
  match msgVal with
  | some s => pure (Except.ok ([s], []))
  | none => do
    let hasMsgs ← pyContains "messages" data
    let msgsVal ←
      if hasMsgs then do
        let v ← pyGet "messages" data
        pure (match v with | Json.arr xs => some xs | _ => none)
      else pure none
    match msgsVal with
    | some xs => pure (Except.ok (collect_string_messages xs))
    | none => do
      let hasAlerts ← pyContains "alerts" data
      if hasAlerts then do
        let v ← pyGet "alerts" data
        let alerts ← pyIter v
        let ms ← alert_messages alerts
        pure (Except.ok (ms, []))
      else
        pure (Except.error ())

/-- HTTP method of a request reaching the `/sms` route. -/
inductive Method where
  | GET : Method
  | POST : Method
deriving DecidableEq, Repr

/-- An HTTP request to `/sms`: the `number` and `message` query
parameters, and the result of `json.loads` on the request body
(`Except.error` = the body is not parsable JSON, the `ValueError`
branch). -/
structure HttpRequest where
  method : Method
  argNumber : Option String
  argMessage : Option String
  body : Except Unit Json

/-- The JSON body and HTTP code of a response of `receive_sms`. -/
structure Response where
  status : String
  message : String
  code : Nat
deriving DecidableEq, Repr

/-- Groups of characters between commas, for Python `n.split(',')`. -/
def splitCommaAux : List Char → List (List Char)
  | [] => [[]]
  | c :: t =>
    let rest := splitCommaAux t
    if c = ',' then [] :: rest
    else
      match rest with
      | [] => [[c]]
      | g :: gs => (c :: g) :: gs

/-- Python `n.split(',')`: split on every comma, keeping empty pieces
(`"".split(',')` is `[""]`).  Behaviourally `String.splitOn ","`, but
defined by structural recursion so concrete instances evaluate inside
the kernel. -/
def pySplitComma (s : String) : List String :=
  (splitCommaAux s.data).map (fun g => ⟨g⟩)

/-- Embedding of the send loop of `receive_sms` (lines 71-73): outer
loop over the numbers, inner loop over the messages, one `send_sms`
call per pair. -/
def send_loop (numbers messages : List String) (st : GatewayState) : GatewayState :=
  numbers.foldl
    (fun s number => messages.foldl (fun s2 message => send_sms number message s2) s)
    st

/-- Embedding of the `/sms` route handler `receive_sms` (lines 29-75):
parse the comma-separated `number` parameter (500 error if missing),
collect the messages from the `message` query parameter (GET, empty
string is falsy) or from the JSON body (POST), run the send loop, and
answer 202.  `none` models an exception the handler does not catch. -/
def receive_sms (req : HttpRequest) (st : GatewayState) :
    Option (GatewayState × Response) :=
  match req.argNumber with
  | none =>
    some ({ st with log := st.log ++ [LogEvent.errorNoNumbers] },
          ⟨"error", "could not read phone numbers", 500⟩)
  | some n =>
    let numbers := pySplitComma n
    match req.method with
    | Method.GET =>
      match req.argMessage with
      | some m =>
        if m = "" then
          some ({ st with log := st.log ++ [LogEvent.errorNoMessage] },
                ⟨"error", "could not read message", 500⟩)
        else
          some (send_loop numbers [m] st, ⟨"ok", "messages sent", 202⟩)
      | none =>
        some ({ st with log := st.log ++ [LogEvent.errorNoMessage] },
              ⟨"error", "could not read message", 500⟩)
    | Method.POST =>
      match req.body with
      | Except.error _ =>
        some ({ st with log := st.log ++ [LogEvent.errorBadJson] },
              ⟨"error", "could not read JSON data", 500⟩)
      | Except.ok data =>
        match extract_post_messages data with
        | none => none
        | some (Except.error _) =>
          some ({ st with log := st.log ++ [LogEvent.errorNoMessageJson] },
                ⟨"error", "could not read message from JSON", 500⟩)
        | some (Except.ok (msgs, warns)) =>
          let st := { st with log := st.log ++ warns }
          some (send_loop numbers msgs st, ⟨"ok", "messages sent", 202⟩)

/-!
Helper lemmas: branch characterizations of `send_sms` and `read_sms`.
-/

theorem send_sms_of_not_mem (number text : String) (st : GatewayState)
    (h : number ∉ st.send_blacklist) :
    send_sms number text st =
      { st with calls := st.calls ++ [(number, text)],
                queue := st.queue ++ [(number, text)] } := by
  simp [send_sms, h]

theorem send_sms_of_mem (number text : String) (st : GatewayState)
    (h : number ∈ st.send_blacklist) :
    send_sms number text st =
      { st with calls := st.calls ++ [(number, text)],
                log := st.log ++ [LogEvent.errorBlacklisted number] } := by
  simp [send_sms, h]

theorem send_sms_receive_whitelist (number text : String) (st : GatewayState) :
    (send_sms number text st).receive_whitelist = st.receive_whitelist := by
  by_cases h : number ∈ st.send_blacklist <;> simp [send_sms, h]

theorem send_sms_send_blacklist (number text : String) (st : GatewayState) :
    (send_sms number text st).send_blacklist = st.send_blacklist := by
  by_cases h : number ∈ st.send_blacklist <;> simp [send_sms, h]

theorem read_sms_of_not_wl (s t : String) (st : GatewayState)
    (h : s ∉ st.receive_whitelist) :
    read_sms s t st = { st with log := st.log ++ [LogEvent.errorDenied s] } := by
  simp [read_sms, h]

theorem read_sms_ping_eq (s t : String) (st : GatewayState)
    (hw : s ∈ st.receive_whitelist) (ht : strLower t = "ping") :
    read_sms s t st = send_sms s "PONG" st := by
  simp [read_sms, hw, ht]

theorem read_sms_pause_mem_eq (s t : String) (st : GatewayState)
    (hw : s ∈ st.receive_whitelist) (ht : strLower t = "pause")
    (hb : s ∈ st.send_blacklist) :
    read_sms s t st =
      send_sms s "OK" { st with send_blacklist := st.send_blacklist.erase s } := by
  simp [read_sms, hw, ht, hb]

theorem read_sms_pause_not_mem_eq (s t : String) (st : GatewayState)
    (hw : s ∈ st.receive_whitelist) (ht : strLower t = "pause")
    (hb : s ∉ st.send_blacklist) :
    read_sms s t st =
      { st with send_blacklist := st.send_blacklist ++ [s],
                queue := st.queue ++ [(s, "OK")],
                calls := st.calls ++ [(s, "OK")] } := by
  simp [read_sms, hw, ht, hb, send_sms]

theorem read_sms_other_eq (s t : String) (st : GatewayState)
    (hw : s ∈ st.receive_whitelist) (ht1 : strLower t ≠ "ping")
    (ht2 : strLower t ≠ "pause") :
    read_sms s t st = send_sms s "ERROR" st := by
  simp [read_sms, hw, ht1, ht2]

/-!
Claim theorems.
-/

/-- C1, counterexample: starting from `send_blacklist = ["+1", "+1"]`
(the blacklist is a Python list, so a configured initial blacklist can
contain a number twice), two consecutive `pause` commands from the
allowed sender `"+1"` remove both copies — the sender was blocked before
and is unblocked after, so the round trip fails as universally stated. -/
theorem pause_toggle_duplicate_cex :
    "+1" ∈ (⟨["+1"], ["+1", "+1"], [], [], [], []⟩ : GatewayState).receive_whitelist ∧
    "+1" ∈ (⟨["+1"], ["+1", "+1"], [], [], [], []⟩ : GatewayState).send_blacklist ∧
    "+1" ∉ (read_sms "+1" "pause" (read_sms "+1" "pause"
      (⟨["+1"], ["+1", "+1"], [], [], [], []⟩ : GatewayState))).send_blacklist := by
  decide

/-- C1, amended: for every allowed sender `s` whose number occurs at
most once in `send_blacklist` (in particular whenever the blacklist is
duplicate-free, as every state reachable from a duplicate-free
configuration is), two consecutive `pause` commands from `s` leave the
membership of `s` in `send_blacklist` as it was before the first
command. -/
theorem pause_toggle_roundtrip (s : String) (st : GatewayState)
    (hw : s ∈ st.receive_whitelist)
    (hcount : st.send_blacklist.count s ≤ 1) :
    (s ∈ (read_sms s "pause" (read_sms s "pause" st)).send_blacklist ↔
      s ∈ st.send_blacklist) := by
  by_cases hb : s ∈ st.send_blacklist
  · have h1 : st.send_blacklist.count s = 1 :=
      Nat.le_antisymm hcount (List.count_pos_iff.mpr hb)
    have hnot : s ∉ st.send_blacklist.erase s := by
      apply List.count_eq_zero.mp
      simp [List.count_erase_self, h1]
    simp [read_sms, send_sms, hw, hb, hnot,
      show strLower "pause" = "pause" from rfl]
  · have he : (st.send_blacklist ++ [s]).erase s = st.send_blacklist := by
      rw [List.erase_append_right _ hb, List.erase_cons_head, List.append_nil]
    simp [read_sms, send_sms, hw, hb, he,
      show strLower "pause" = "pause" from rfl]

/-- C1, witness. -/
theorem pause_toggle_roundtrip_wit :
    ("+7" ∈ (⟨["+7"], ["+7"], [], [], [], []⟩ : GatewayState).send_blacklist) ∧
    ("+7" ∈ (read_sms "+7" "pause" (read_sms "+7" "pause"
      (⟨["+7"], ["+7"], [], [], [], []⟩ : GatewayState))).send_blacklist) :=
  ⟨by decide,
   (pause_toggle_roundtrip "+7" ⟨["+7"], ["+7"], [], [], [], []⟩
      (by decide) (by decide)).mpr (by decide)⟩

/-- C2: an allowed, not currently blocked sender who texts `pause` (any
casing) is appended to `send_blacklist`, and the `(sender, "OK")` reply
is pushed onto the outbound queue — the reply is enqueued before the
blacklist mutation, so it is not suppressed by the blacklist check of
`send_sms`. -/
theorem pause_unblocked_spec (s t : String) (st : GatewayState)
    (hw : s ∈ st.receive_whitelist) (hb : s ∉ st.send_blacklist)
    (ht : strLower t = "pause") :
    read_sms s t st =
      { st with send_blacklist := st.send_blacklist ++ [s],
                queue := st.queue ++ [(s, "OK")],
                calls := st.calls ++ [(s, "OK")] } :=
  read_sms_pause_not_mem_eq s t st hw ht hb

/-- C2, witness. -/
theorem pause_unblocked_spec_wit :
    read_sms "+100" "PAUSE" (⟨["+100"], [], [], [], [], []⟩ : GatewayState) =
      ⟨["+100"], ["+100"], [("+100", "OK")], [("+100", "OK")], [], []⟩ :=
  pause_unblocked_spec "+100" "PAUSE" ⟨["+100"], [], [], [], [], []⟩
    (by decide) (by decide) (by decide)

/-- C3, counterexample: the PONG reply is routed through the
blacklist-checked `send_sms`, so an allowed sender who is currently
blocked gets nothing pushed onto the outbound queue — the claim fails
without the "not blocked" restriction. -/
theorem ping_blocked_no_pong_cex :
    "+100" ∈ (⟨["+100"], ["+100"], [], [], [], []⟩ : GatewayState).receive_whitelist ∧
    strLower "PING" = "ping" ∧
    (read_sms "+100" "PING"
      (⟨["+100"], ["+100"], [], [], [], []⟩ : GatewayState)).queue = [] := by
  decide

/-- C3, amended: for every allowed sender `s` that is not currently in
`send_blacklist` and every text lower-casing to `ping`, handling the
message pushes `(s, "PONG")` onto the outbound queue and changes neither
`receive_whitelist` nor `send_blacklist`. -/
theorem ping_spec (s t : String) (st : GatewayState)
    (hw : s ∈ st.receive_whitelist) (hb : s ∉ st.send_blacklist)
    (ht : strLower t = "ping") :
    read_sms s t st =
      { st with queue := st.queue ++ [(s, "PONG")],
                calls := st.calls ++ [(s, "PONG")] } := by
  rw [read_sms_ping_eq s t st hw ht, send_sms_of_not_mem s "PONG" st hb]

/-- C3, witness. -/
theorem ping_spec_wit :
    read_sms "+100" "PING" (⟨["+100"], [], [], [], [], []⟩ : GatewayState) =
      ⟨["+100"], [], [("+100", "PONG")], [("+100", "PONG")], [], []⟩ :=
  ping_spec "+100" "PING" ⟨["+100"], [], [], [], [], []⟩
    (by decide) (by decide) (by decide)

/-- C4: a sender not on `receive_whitelist` causes no access-policy
mutation and no reply enqueue, whatever the message text: the only
effect is the denied-access log entry. -/
theorem nonwhitelisted_spec (s t : String) (st : GatewayState)
    (hw : s ∉ st.receive_whitelist) :
    read_sms s t st = { st with log := st.log ++ [LogEvent.errorDenied s] } :=
  read_sms_of_not_wl s t st hw

/-- C4, witness. -/
theorem nonwhitelisted_spec_wit :
    read_sms "+66" "pause" (⟨["+100"], [], [], [], [], []⟩ : GatewayState) =
      ⟨["+100"], [], [], [], [], [LogEvent.errorDenied "+66"]⟩ :=
  nonwhitelisted_spec "+66" "pause" ⟨["+100"], [], [], [], [], []⟩ (by decide)

/-- C5: `send_sms` never raises (it is a total function on the state):
for a blacklisted recipient it pushes nothing and only logs the
rejection, and for a non-blacklisted recipient it pushes exactly the one
item `(recipient, text)` onto the FIFO queue. -/
theorem send_sms_enqueue_spec (r t : String) (st : GatewayState) :
    (r ∈ st.send_blacklist →
      send_sms r t st =
        { st with calls := st.calls ++ [(r, t)],
                  log := st.log ++ [LogEvent.errorBlacklisted r] }) ∧
    (r ∉ st.send_blacklist →
      send_sms r t st =
        { st with calls := st.calls ++ [(r, t)],
                  queue := st.queue ++ [(r, t)] }) :=
  ⟨fun h => send_sms_of_mem r t st h, fun h => send_sms_of_not_mem r t st h⟩

/-- C5, witness: one blocked and one unblocked concrete call. -/
theorem send_sms_enqueue_spec_wit :
    send_sms "+3" "x" (⟨[], ["+3"], [], [], [], []⟩ : GatewayState) =
      ⟨[], ["+3"], [], [("+3", "x")], [], [LogEvent.errorBlacklisted "+3"]⟩ ∧
    send_sms "+4" "y" (⟨[], ["+3"], [], [], [], []⟩ : GatewayState) =
      ⟨[], ["+3"], [("+4", "y")], [("+4", "y")], [], []⟩ :=
  ⟨(send_sms_enqueue_spec "+3" "x" ⟨[], ["+3"], [], [], [], []⟩).1 (by decide),
   (send_sms_enqueue_spec "+4" "y" ⟨[], ["+3"], [], [], [], []⟩).2 (by decide)⟩

/-- C6: when an item is at the front of the queue, one worker step pops
exactly that item, makes exactly one send attempt for it, and — success
or exception — discards it (the queue becomes the rest, the item is
never re-enqueued); an exception is caught and logged and the step
stays total, so the loop continues with the next item. -/
theorem sender_step_spec (o : SendOutcome) (d : String × String)
    (rest : List (String × String)) (st : GatewayState)
    (hq : st.queue = d :: rest) :
    sms_sender_step o st =
      { st with queue := rest,
                sendAttempts := st.sendAttempts ++ [d],
                log := st.log ++
                  [match o with
                   | SendOutcome.success => LogEvent.infoSent d.1
                   | SendOutcome.failure => LogEvent.errorSendFailed d.1] } := by
  cases o <;> simp [sms_sender_step, hq]

/-- C6, witness: a failing send drops the item and logs the failure. -/
theorem sender_step_spec_wit :
    sms_sender_step SendOutcome.failure
      (⟨[], [], [("+5", "m"), ("+6", "n")], [], [], []⟩ : GatewayState) =
      ⟨[], [], [("+6", "n")], [], [("+5", "m")], [LogEvent.errorSendFailed "+5"]⟩ :=
  sender_step_spec SendOutcome.failure ("+5", "m") [("+6", "n")]
    ⟨[], [], [("+5", "m"), ("+6", "n")], [], [], []⟩ (by decide)

theorem drain_loop_err (rs : List SmsRecord) (more : List (Option SmsRecord))
    (remain : Nat) (h : (rs.map (fun r => r.parts)).sum < remain) :
    drain_loop remain (rs.map some ++ none :: more) = (rs, true) := by
  induction rs generalizing remain with
  | nil =>
    have h0 : remain ≠ 0 := by
      simp only [List.map_nil, List.sum_nil] at h; omega
    simp [drain_loop, h0]
  | cons r rs ih =>
    have h0 : remain ≠ 0 := by
      simp only [List.map_cons, List.sum_cons] at h; omega
    have h2 : (rs.map (fun r => r.parts)).sum < remain - r.parts := by
      simp only [List.map_cons, List.sum_cons] at h; omega
    simp [drain_loop, h0, ih _ h2]

/-- C7: if, during one poll cycle, the device raises after `rs` records
were already fetched and deleted (with enough reported pending count
left), the drain aborts there, but every record of `rs` is still
dispatched to the command interpreter `read_sms` in fetch order, after a
critical log entry; the cycle is a total function, so the polling loop
goes on to the next cycle. -/
theorem reader_cycle_spec (rs : List SmsRecord) (more : List (Option SmsRecord))
    (remain : Nat) (st : GatewayState)
    (h : (rs.map (fun r => r.parts)).sum < remain) :
    sms_reader_cycle (some remain) (rs.map some ++ none :: more) st =
      rs.foldl
        (fun s r =>
          read_sms r.number r.text
            { s with log := s.log ++ [LogEvent.infoReceived r.number] })
        { st with log := st.log ++ [LogEvent.criticalReadError] } := by
  simp [sms_reader_cycle, drain_loop_err rs more remain h]

/-- C7, witness: one record fetched, then a device exception — the
record is still dispatched (here an allowed `ping`, whose PONG lands on
the queue) after the critical log entry. -/
theorem reader_cycle_spec_wit :
    sms_reader_cycle (some 5) [some ⟨"a", "ping", 1, 1⟩, none]
      (⟨["a"], [], [], [], [], []⟩ : GatewayState) =
      ⟨["a"], [], [("a", "PONG")], [("a", "PONG")], [],
        [LogEvent.criticalReadError, LogEvent.infoReceived "a"]⟩ :=
  (reader_cycle_spec [⟨"a", "ping", 1, 1⟩] [] 5 ⟨["a"], [], [], [], [], []⟩
    (by decide)).trans (by decide)

theorem send_sms_calls_eq (n m : String) (st : GatewayState) :
    (send_sms n m st).calls = st.calls ++ [(n, m)] := by
  by_cases h : n ∈ st.send_blacklist <;> simp [send_sms, h]

theorem inner_send_calls (n : String) (messages : List String) (st : GatewayState) :
    (messages.foldl (fun s2 message => send_sms n message s2) st).calls =
      st.calls ++ messages.map (fun m => (n, m)) := by
  induction messages generalizing st with
  | nil => simp
  | cons m ms ih => simp [ih, send_sms_calls_eq]

theorem send_loop_calls (numbers messages : List String) (st : GatewayState) :
    (send_loop numbers messages st).calls =
      st.calls ++ numbers.flatMap (fun n => messages.map (fun m => (n, m))) := by
  induction numbers generalizing st with
  | nil => simp [send_loop]
  | cons n ns ih =>
    simp only [send_loop] at ih ⊢
    simp [List.foldl_cons, ih, inner_send_calls]

/-- C8: the ingress send loop invokes the enqueue API `send_sms` once
per (recipient, message) pair, in recipient-major, message-minor order
(the ghost `calls` trace is exactly the ordered pair product); in
particular recipients `["A", "B"]` with messages `["m1", "m2"]` produce
the enqueue order `(A,m1), (A,m2), (B,m1), (B,m2)`. -/
theorem ingress_order_spec :
    (∀ (numbers messages : List String) (st : GatewayState),
      (send_loop numbers messages st).calls =
        st.calls ++ numbers.flatMap (fun n => messages.map (fun m => (n, m)))) ∧
    (send_loop ["A", "B"] ["m1", "m2"]
        (⟨[], [], [], [], [], []⟩ : GatewayState)).calls =
      [("A", "m1"), ("A", "m2"), ("B", "m1"), ("B", "m2")] :=
  ⟨send_loop_calls, by decide⟩

theorem collect_string_messages_map (ms : List String) :
    collect_string_messages (ms.map Json.str) = (ms, []) := by
  induction ms with
  | nil => rfl
  | cons m ms ih => simp [collect_string_messages, ih]

/-- C9: a POST with a non-empty comma-separated `number` parameter and
a JSON object body whose `message` field is a string (or whose
`messages` field is a list of strings) runs the whole send loop — one
enqueue call per (number, message) pair — and answers the accepted
202 response; a missing `number` parameter, an unparsable body, and a
body with none of the message-carrying fields each answer a structured
500 error response instead. -/
theorem receive_sms_http_spec :
    (∀ (st : GatewayState) (num : String) (data : Json) (s : String)
        (marg : Option String),
      num ≠ "" →
      pyContains "message" data = some true →
      pyGet "message" data = some (Json.str s) →
      receive_sms ⟨Method.POST, some num, marg, Except.ok data⟩ st =
          some (send_loop (pySplitComma num) [s] st, ⟨"ok", "messages sent", 202⟩) ∧
        (send_loop (pySplitComma num) [s] st).calls =
          st.calls ++ (pySplitComma num).flatMap (fun n => [(n, s)])) ∧
    (∀ (st : GatewayState) (num : String) (data : Json) (ms : List String)
        (marg : Option String),
      num ≠ "" →
      pyContains "message" data = some false →
      pyContains "messages" data = some true →
      pyGet "messages" data = some (Json.arr (ms.map Json.str)) →
      receive_sms ⟨Method.POST, some num, marg, Except.ok data⟩ st =
          some (send_loop (pySplitComma num) ms st, ⟨"ok", "messages sent", 202⟩) ∧
        (send_loop (pySplitComma num) ms st).calls =
          st.calls ++ (pySplitComma num).flatMap (fun n => ms.map (fun m => (n, m)))) ∧
    (∀ (st : GatewayState) (method : Method) (marg : Option String)
        (body : Except Unit Json),
      receive_sms ⟨method, none, marg, body⟩ st =
        some ({ st with log := st.log ++ [LogEvent.errorNoNumbers] },
              ⟨"error", "could not read phone numbers", 500⟩)) ∧
    (∀ (st : GatewayState) (num : String) (marg : Option String),
      receive_sms ⟨Method.POST, some num, marg, Except.error ()⟩ st =
        some ({ st with log := st.log ++ [LogEvent.errorBadJson] },
              ⟨"error", "could not read JSON data", 500⟩)) ∧
    (∀ (st : GatewayState) (num : String) (marg : Option String) (data : Json),
      pyContains "message" data = some false →
      pyContains "messages" data = some false →
      pyContains "alerts" data = some false →
      receive_sms ⟨Method.POST, some num, marg, Except.ok data⟩ st =
        some ({ st with log := st.log ++ [LogEvent.errorNoMessageJson] },
              ⟨"error", "could not read message from JSON", 500⟩)) := by
  refine ⟨?_, ?_, ?_, ?_, ?_⟩
  · intro st num data s marg _ hc hg
    have hext : extract_post_messages data = some (Except.ok ([s], [])) := by
      simp [extract_post_messages, hc, hg]
    refine ⟨?_, ?_⟩
    · simp [receive_sms, hext]
    · simp [send_loop_calls]
  · intro st num data ms marg _ hc1 hc2 hg
    have hext : extract_post_messages data = some (Except.ok (ms, [])) := by
      simp [extract_post_messages, hc1, hc2, hg, collect_string_messages_map]
    refine ⟨?_, ?_⟩
    · simp [receive_sms, hext]
    · simp [send_loop_calls]
  · intro st method marg body
    simp [receive_sms]
  · intro st num marg
    simp [receive_sms]
  · intro st num marg data hc1 hc2 hc3
    have hext : extract_post_messages data = some (Except.error ()) := by
      simp [extract_post_messages, hc1, hc2, hc3]
    simp [receive_sms, hext]

/-- C9, witness: concrete well-formed and malformed requests. -/
theorem receive_sms_http_spec_wit :
    (receive_sms ⟨Method.POST, some "A,B", none,
        Except.ok (Json.obj [("message", Json.str "hi")])⟩
        (⟨[], [], [], [], [], []⟩ : GatewayState) =
      some (send_loop (pySplitComma "A,B") ["hi"] ⟨[], [], [], [], [], []⟩,
            ⟨"ok", "messages sent", 202⟩)) ∧
    (receive_sms ⟨Method.POST, some "+1", none,
        Except.ok (Json.obj [("messages", Json.arr [Json.str "m1", Json.str "m2"])])⟩
        (⟨[], [], [], [], [], []⟩ : GatewayState) =
      some (send_loop (pySplitComma "+1") ["m1", "m2"] ⟨[], [], [], [], [], []⟩,
            ⟨"ok", "messages sent", 202⟩)) ∧
    (receive_sms ⟨Method.POST, none, none, Except.ok Json.null⟩
        (⟨[], [], [], [], [], []⟩ : GatewayState) =
      some (⟨[], [], [], [], [], [LogEvent.errorNoNumbers]⟩,
            ⟨"error", "could not read phone numbers", 500⟩)) ∧
    (receive_sms ⟨Method.POST, some "+1", none, Except.error ()⟩
        (⟨[], [], [], [], [], []⟩ : GatewayState) =
      some (⟨[], [], [], [], [], [LogEvent.errorBadJson]⟩,
            ⟨"error", "could not read JSON data", 500⟩)) ∧
    (receive_sms ⟨Method.POST, some "+1", none, Except.ok (Json.obj [("x", Json.num 3)])⟩
        (⟨[], [], [], [], [], []⟩ : GatewayState) =
      some (⟨[], [], [], [], [], [LogEvent.errorNoMessageJson]⟩,
            ⟨"error", "could not read message from JSON", 500⟩)) :=
  ⟨(receive_sms_http_spec.1 ⟨[], [], [], [], [], []⟩ "A,B"
      (Json.obj [("message", Json.str "hi")]) "hi" none
      (by decide) rfl rfl).1,
   (receive_sms_http_spec.2.1 ⟨[], [], [], [], [], []⟩ "+1"
      (Json.obj [("messages", Json.arr [Json.str "m1", Json.str "m2"])])
      ["m1", "m2"] none (by decide) rfl rfl rfl).1,
   receive_sms_http_spec.2.2.1 ⟨[], [], [], [], [], []⟩ Method.POST none
      (Except.ok Json.null),
   receive_sms_http_spec.2.2.2.1 ⟨[], [], [], [], [], []⟩ "+1" none,
   receive_sms_http_spec.2.2.2.2 ⟨[], [], [], [], [], []⟩ "+1" none
      (Json.obj [("x", Json.num 3)]) rfl rfl rfl⟩

/-- C10: every command-interpreter reply goes through the
blacklist-checked `send_sms`, so an allowed sender that is currently
blacklisted gets no reply for `ping` or for an unrecognized command:
nothing is pushed onto the outbound queue and the blacklist is
unchanged. -/
theorem blocked_reply_suppressed (s t : String) (st : GatewayState)
    (hw : s ∈ st.receive_whitelist) (hb : s ∈ st.send_blacklist)
    (ht : strLower t = "ping" ∨ (strLower t ≠ "ping" ∧ strLower t ≠ "pause")) :
    (read_sms s t st).queue = st.queue ∧
    (read_sms s t st).send_blacklist = st.send_blacklist := by
  rcases ht with ht | ⟨ht1, ht2⟩
  · rw [read_sms_ping_eq s t st hw ht, send_sms_of_mem s "PONG" st hb]
    exact ⟨rfl, rfl⟩
  · rw [read_sms_other_eq s t st hw ht1 ht2, send_sms_of_mem s "ERROR" st hb]
    exact ⟨rfl, rfl⟩

/-- C10, witness: a blocked allowed sender gets neither PONG nor ERROR. -/
theorem blocked_reply_suppressed_wit :
    ((read_sms "+9" "ping" (⟨["+9"], ["+9"], [], [], [], []⟩ : GatewayState)).queue = [] ∧
      (read_sms "+9" "ping"
        (⟨["+9"], ["+9"], [], [], [], []⟩ : GatewayState)).send_blacklist = ["+9"]) ∧
    ((read_sms "+9" "hello" (⟨["+9"], ["+9"], [], [], [], []⟩ : GatewayState)).queue = [] ∧
      (read_sms "+9" "hello"
        (⟨["+9"], ["+9"], [], [], [], []⟩ : GatewayState)).send_blacklist = ["+9"]) :=
  ⟨blocked_reply_suppressed "+9" "ping" ⟨["+9"], ["+9"], [], [], [], []⟩
      (by decide) (by decide) (Or.inl (by decide)),
   blocked_reply_suppressed "+9" "hello" ⟨["+9"], ["+9"], [], [], [], []⟩
      (by decide) (by decide) (Or.inr ⟨by decide, by decide⟩)⟩

end SmsGateway
